import Mathlib

/-!
Verification development for the Mochi Tracker repository.

The repository is a React single-page client (`src/App.jsx`) backed by a
Google Apps Script endpoint (`google-apps-script.js`).  This file gives a
shallow embedding of the client state handlers (`fetchLocation`,
`shareLocation`), of the backend request handler (`doGet`), and of the
relative-time formatter described in the specification, and proves the
stated properties about them.
-/

/-- A JavaScript value as it appears in the parsed JSON responses handled by
the client: `null`, `undefined` (an absent field), booleans, numbers
(modelled as rationals) and strings. -/
inductive JsValue where
  | null
  | undefined
  | bool (b : Bool)
  | num (q : ℚ)
  | str (s : String)
deriving DecidableEq, Repr

/-- A JavaScript number that may be `NaN`, as produced by `parseFloat`. -/
inductive JsNum where
  | nan
  | val (q : ℚ)
deriving DecidableEq, Repr

/-- JavaScript truthiness, as used by the guard `data?.lat && data?.lng` in
`fetchLocation` and by `!lat || !lng || !time` in `doGet`. -/
def truthy : JsValue → Bool
  | .null => false
  | .undefined => false
  | .bool b => b
  | .num q => decide (q ≠ 0)
  | .str s => decide (s ≠ "")

/-- Drop leading space characters. -/
def skipSpaces (cs : List Char) : List Char :=
  cs.dropWhile (fun c => c = ' ')

/-- The natural number denoted by a list of decimal digit characters. -/
def natOfDigits (ds : List Char) : Nat :=
  ds.foldl (fun a c => a * 10 + (c.toNat - 48)) 0

/-- `parseFloat` on a string: optional leading spaces and sign, then a
decimal literal (integer part, optional fraction); `NaN` when no digit is
found.  Exponent notation is not needed by any input considered here. -/
def parseFloatStr (s : String) : JsNum :=
  let cs := skipSpaces s.data
  let signAndRest : Int × List Char :=
    match cs with
    | '-' :: rest => (-1, rest)
    | '+' :: rest => (1, rest)
    | _ => (1, cs)
  let sign := signAndRest.1
  let cs1 := signAndRest.2
  let intPart := cs1.takeWhile Char.isDigit
  let afterInt := cs1.dropWhile Char.isDigit
  let fracPart :=
    match afterInt with
    | '.' :: r2 => r2.takeWhile Char.isDigit
    | _ => []
  if intPart.isEmpty && fracPart.isEmpty then JsNum.nan
  else
    JsNum.val ((sign : ℚ) *
      ((natOfDigits intPart : ℚ) + (natOfDigits fracPart : ℚ) / (10 : ℚ) ^ fracPart.length))

/-- JavaScript `parseFloat` applied to a JSON field value. -/
def parseFloatJs : JsValue → JsNum
  | .num q => .val q
  | .str s => parseFloatStr s
  | _ => .nan

/-- The React component state relevant to the claims: `location` and
`timestamp` (both initialised to `null` by `useState(null)`) and the
`loading` flag (initialised to `true`). -/
structure AppState where
  location : Option (JsNum × JsNum)
  timestamp : JsValue
  loading : Bool
deriving DecidableEq, Repr

/-- The initial component state: `useState(null)`, `useState(null)`,
`useState(true)`. -/
def initState : AppState :=
  { location := none, timestamp := JsValue.null, loading := true }

/-- Outcome of the read request issued by `fetchLocation`: either a
network/JSON-parse failure (the `catch` path), or a parsed JSON object whose
`lat`, `lng`, `time` fields are the given values (`undefined` when absent). -/
inductive FetchOutcome where
  | failure
  | success (lat lng time : JsValue)
deriving DecidableEq, Repr

/-- `fetchLocation` from `src/App.jsx`: on a parsed response it updates
`location` and `timestamp` only when `data?.lat && data?.lng` is truthy,
storing `[parseFloat(data.lat), parseFloat(data.lng)]` and `data.time`; on
failure it only logs; `finally` it clears `loading`. -/
def fetchLocation (s : AppState) : FetchOutcome → AppState
  | .failure => { s with loading := false }
  | .success lat lng t =>
    if truthy lat && truthy lng then
      { location := some (parseFloatJs lat, parseFloatJs lng),
        timestamp := t,
        loading := false }
    else
      { s with loading := false }

/-- Outcome of the write request issued by `shareLocation`: a transport
error (rejected fetch), or a response with its `ok` flag, HTTP status and
body text. -/
inductive WriteOutcome where
  | transportError (msg : String)
  | response (ok : Bool) (status : Nat) (body : String)
deriving DecidableEq, Repr

/-- The user-facing notice produced by `shareLocation`: the success alert or
the failure alert, with its message. -/
inductive Notice where
  | success (msg : String)
  | failure (msg : String)
deriving DecidableEq, Repr

/-- How `shareLocation` classifies a write outcome: the `try` block throws
exactly when the transport fails or `response.ok` is false; the body text is
never inspected for the decision. -/
def classifyOk : WriteOutcome → Bool
  | .transportError _ => false
  | .response ok _ _ => ok

/-- `shareLocation` from `src/App.jsx`, after geolocation has granted a
position `(lat, lng)` and `now` is the locale time string: it first sets
`location` and `timestamp` optimistically, then performs the GET write; on
`response.ok` it alerts success, otherwise it throws
`HTTP <status>: <body>` which the `catch` turns into the failure alert; a
transport error reaches the same `catch`.  Returns the new state and the
notice shown. -/
def shareLocation (s : AppState) (lat lng : ℚ) (now : String)
    (o : WriteOutcome) : AppState × Notice :=
  let s1 : AppState :=
    { s with location := some (JsNum.val lat, JsNum.val lng),
             timestamp := JsValue.str now }
  match o with
  | .transportError msg =>
      (s1, Notice.failure ("Failed to update location: " ++ msg))
  | .response ok status body =>
      if ok then
        (s1, Notice.success ("Mochi's location updated!"))
      else
        (s1, Notice.failure ("Failed to update location: HTTP " ++
          toString status ++ ": " ++ body))

/-- Truthiness of a Google Apps Script request parameter: `e.parameter.x` is
`undefined` when absent and a string otherwise, so `!x` holds exactly for an
absent or empty parameter. -/
def paramTruthy : Option String → Bool
  | none => false
  | some s => decide (s ≠ "")

/-- JSON body returned by `doGet` on a successful update. -/
def updateSuccessJson : String :=
  "\x7b\"success\":true,\"message\":\"Location updated successfully\"\x7d"

/-- JSON body returned by `doGet` when a required parameter is missing. -/
def missingParamsJson : String :=
  "\x7b\"success\":false,\"error\":\"Missing required parameters\"\x7d"

/-- JSON body returned by `doGet` on a read, serialising the stored row. -/
def readJson (row : String × String × String) : String :=
  "\x7b\"lat\":\"" ++ row.1 ++ "\",\"lng\":\"" ++ row.2.1 ++
    "\",\"time\":\"" ++ row.2.2 ++ "\"\x7d"

/-- The request parameters of a `doGet` call; each is absent or a string. -/
structure GetParams where
  action : Option String
  lat : Option String
  lng : Option String
  time : Option String
deriving DecidableEq, Repr

/-- `doGet` from `google-apps-script.js`, with the spreadsheet row 2
(columns A, B, C) made explicit.  With `action=update` it validates
`!lat || !lng || !time`, returning the missing-parameters JSON without
touching the sheet, and otherwise writes `[[lat, lng, time]]` and returns
the success JSON; without `action=update` it returns the stored row as
JSON.  Returns the row after the call and the response body. -/
def doGet (row : String × String × String) (p : GetParams) :
    (String × String × String) × String :=
  if p.action = some "update" then
    if paramTruthy p.lat && paramTruthy p.lng && paramTruthy p.time then
      ((p.lat.getD "", p.lng.getD "", p.time.getD ""), updateSuccessJson)
    else
      (row, missingParamsJson)
  else
    (row, readJson row)

/-- Parse one or two decimal digits from the front of the list. -/
def parse1or2 : List Char → Option (Nat × List Char)
  | c1 :: rest =>
    if c1.isDigit then
      match rest with
      | c2 :: rest2 =>
        if c2.isDigit then
          some ((c1.toNat - 48) * 10 + (c2.toNat - 48), rest2)
        else
          some (c1.toNat - 48, rest)
      | [] => some (c1.toNat - 48, [])
    else none
  | [] => none

/-- Parse exactly two decimal digits from the front of the list. -/
def parse2 : List Char → Option (Nat × List Char)
  | c1 :: c2 :: rest =>
    if c1.isDigit && c2.isDigit then
      some ((c1.toNat - 48) * 10 + (c2.toNat - 48), rest)
    else none
  | _ => none

/-- Parse exactly four decimal digits from the front of the list. -/
def parse4 : List Char → Option (Nat × List Char)
  | c1 :: c2 :: c3 :: c4 :: rest =>
    if c1.isDigit && c2.isDigit && c3.isDigit && c4.isDigit then
      some (natOfDigits [c1, c2, c3, c4], rest)
    else none
  | _ => none

/-- Consume the given character from the front of the list. -/
def expectChar (c : Char) : List Char → Option (List Char)
  | x :: rest => if x = c then some rest else none
  | [] => none

/-- Days since 1970-01-01 of the civil date `y-m-d` (proleptic Gregorian),
by the standard days-from-civil computation with truncating division. -/
def daysFromCivil (y m d : Int) : Int :=
  let y1 := if m ≤ 2 then y - 1 else y
  let era := (if y1 ≥ 0 then y1 else y1 - 399) / 400
  let yoe := y1 - era * 400
  let mp := if m > 2 then m - 3 else m + 9
  let doy := (153 * mp + 2) / 5 + d - 1
  let doe := yoe * 365 + yoe / 4 - yoe / 100 + doy
  era * 146097 + doe - 719468

/-- The instant (in seconds since the epoch) denoted by the civil date-time
`y-m-d hh:mi:ss`. -/
def mkInstant (y m d hh mi ss : Int) : Int :=
  daysFromCivil y m d * 86400 + hh * 3600 + mi * 60 + ss

/-- Modelled from the spec: the fixed-form day-first pattern match of the
relative-time formatter (spec section 4.1 step 3), which is not among the
source files under version control here.  It matches
`DD/MM/YYYY, HH:MM:SS` (one or two digits for day, month and hour, four for
the year, two for minute and second), and on a match reinterprets the first
two numeric groups as month-then-day — i.e. the first group becomes the day
and the second the month of the resolved instant, compensating for a
day-first source feeding a month-first parser. -/
def parseDayFirst (s : String) : Option Int := do
  let cs := s.data
  let (g1, cs) ← parse1or2 cs
  let cs ← expectChar '/' cs
  let (g2, cs) ← parse1or2 cs
  let cs ← expectChar '/' cs
  let (y, cs) ← parse4 cs
  let cs ← expectChar ',' cs
  let cs := skipSpaces cs
  let (hh, cs) ← parse1or2 cs
  let cs ← expectChar ':' cs
  let (mi, cs) ← parse2 cs
  let cs ← expectChar ':' cs
  let (ss, cs) ← parse2 cs
  if cs.isEmpty then
    some (mkInstant (y : Int) (g2 : Int) (g1 : Int) (hh : Int) (mi : Int) (ss : Int))
  else none

/-- Modelled from the spec: the general month-first date-time parse used as
the fallback stage of the formatter (spec section 4.1 steps 4-5), standing
in for the host date parser, which is not among the source files.  It
accepts `M/D/YYYY` optionally followed by an optional comma, spaces and
`H:MM:SS`, month first. -/
def generalParse (s : String) : Option Int := do
  let cs := s.data
  let (m, cs) ← parse1or2 cs
  let cs ← expectChar '/' cs
  let (d, cs) ← parse1or2 cs
  let cs ← expectChar '/' cs
  let (y, cs) ← parse4 cs
  if cs.isEmpty then
    some (mkInstant (y : Int) (m : Int) (d : Int) 0 0 0)
  else
    let cs := if cs.head? = some ',' then cs.drop 1 else cs
    let cs := skipSpaces cs
    let (hh, cs) ← parse1or2 cs
    let cs ← expectChar ':' cs
    let (mi, cs) ← parse2 cs
    let cs ← expectChar ':' cs
    let (ss, cs) ← parse2 cs
    if cs.isEmpty then
      some (mkInstant (y : Int) (m : Int) (d : Int) (hh : Int) (mi : Int) (ss : Int))
    else none

/-- Remove every comma character from the string (spec section 4.1 step 5). -/
def stripCommas (s : String) : String :=
  ⟨s.data.filter (fun c => c ≠ ',')⟩

/-- The input of the relative-time formatter: absent (`null`), an already
resolved native instant, or a free-form string. -/
inductive TimeInput where
  | absent
  | instant (t : Int)
  | str (s : String)
deriving DecidableEq, Repr

/-- Modelled from the spec: the parse chain of the relative-time formatter
(spec section 4.1 steps 1-6), not among the source files.  Absent input
resolves to nothing; a native instant is used directly; a string is tried
against the day-first pattern, then the general parser, then the general
parser after stripping commas; `none` means every stage failed ("no
result"). -/
def resolveInstant : TimeInput → Option Int
  | .absent => none
  | .instant t => some t
  | .str s =>
    match parseDayFirst s with
    | some t => some t
    | none =>
      match generalParse s with
      | some t => some t
      | none => generalParse (stripCommas s)

/-- The "N unit(s) ago" phrase with singular for a count of 1 and plural
otherwise. -/
def pluralize (n : Int) (unit : String) : String :=
  toString n ++ " " ++ unit ++ (if n = 1 then "" else "s") ++ " ago"

/-- Modelled from the spec: the phrase for a nonnegative-or-negative delta
in whole seconds (spec section 4.1 steps 7-9): a negative delta gives
"just now"; otherwise whole minutes and hours are floored, with "just now"
under a minute, minutes under an hour, hours under a day, and days
otherwise. -/
def relTimePhrase (delta : Int) : String :=
  if delta < 0 then "just now"
  else
    let m := delta / 60
    let h := delta / 3600
    if h < 1 then
      if m < 1 then "just now" else pluralize m "minute"
    else if h < 24 then
      pluralize h "hour"
    else
      pluralize (h / 24) "day"

/-- Modelled from the spec: the relative-time formatter of spec section 4.1,
not among the source files.  It resolves the input to an instant through the
parse chain, producing "no result" when nothing resolves, and otherwise the
phrase for `now - lastSeen`. -/
def formatRelative (input : TimeInput) (now : Int) : String :=
  match resolveInstant input with
  | none => "no result"
  | some t => relTimePhrase (now - t)

/-- Whether a notice is the success alert. -/
def Notice.isSuccess : Notice → Bool
  | .success _ => true
  | .failure _ => false

/-- Shift lemma: formatting a native instant `t` at time `t + d` yields the
phrase for delta `d`. -/
theorem formatRelative_instant_shift (t d : Int) :
    formatRelative (TimeInput.instant t) (t + d) = relTimePhrase d := by
  simp only [formatRelative, resolveInstant]
  congr 1
  omega

/-- Claim C1 counterexample: the report flow of `shareLocation` never
inspects the response body; a body "Error: bad input" on an ok response is
classified as success (the success alert fires), and a body exactly "OK" on
a non-ok response is classified as failure. -/
theorem shareLocation_body_ignored_cex :
    (shareLocation initState 1 2 "29/07/2025, 18:27:27"
        (WriteOutcome.response true 200 "Error: bad input")).2
      = Notice.success "Mochi's location updated!" ∧
    (shareLocation initState 1 2 "29/07/2025, 18:27:27"
        (WriteOutcome.response false 500 "OK")).2
      = Notice.failure "Failed to update location: HTTP 500: OK" :=
  ⟨rfl, rfl⟩

/-- Claim C1 (amended): `shareLocation` classifies a write outcome as
success exactly when the transport succeeds and `response.ok` holds; the
response body plays no part in the classification. -/
theorem shareLocation_success_iff_http_ok (s : AppState) (lat lng : ℚ)
    (now : String) (o : WriteOutcome) :
    ((shareLocation s lat lng now o).2).isSuccess = classifyOk o := by
  cases o with
  | transportError m => rfl
  | response ok st body => cases ok <;> rfl

/-- Claim C2 counterexample: a report attempt whose write fails with a
transport error does not leave the in-memory Sighting unchanged: starting
from the no-sighting state, `location` has been overwritten with the
reported coordinates when the failure alert is shown. -/
theorem shareLocation_overwrites_prior_state_cex :
    (shareLocation initState 1 2 "29/07/2025, 18:27:27"
        (WriteOutcome.transportError "Failed to fetch")).1.location
      ≠ initState.location := by
  decide

/-- Claim C2 (amended): on a failed write (transport error or non-ok
response) the failure notice is presented, but the Sighting has already
been optimistically overwritten with the reported coordinates and
timestamp before the request and is not rolled back. -/
theorem shareLocation_failure_keeps_optimistic_update (s : AppState)
    (lat lng : ℚ) (now : String) (o : WriteOutcome)
    (h : classifyOk o = false) :
    (shareLocation s lat lng now o).1.location
        = some (JsNum.val lat, JsNum.val lng) ∧
    (shareLocation s lat lng now o).1.timestamp = JsValue.str now ∧
    ((shareLocation s lat lng now o).2).isSuccess = false := by
  cases o with
  | transportError m => exact ⟨rfl, rfl, rfl⟩
  | response ok st body =>
    cases ok with
    | false => exact ⟨rfl, rfl, rfl⟩
    | true => exact Bool.noConfusion h

/-- Concrete instance of the amended claim C2 theorem. -/
theorem shareLocation_failure_keeps_optimistic_update_witness :
    classifyOk (WriteOutcome.transportError "Failed to fetch") = false ∧
    ((shareLocation initState 1 2 "29/07/2025, 18:27:27"
        (WriteOutcome.transportError "Failed to fetch")).1.location
      = some (JsNum.val 1, JsNum.val 2) ∧
     (shareLocation initState 1 2 "29/07/2025, 18:27:27"
        (WriteOutcome.transportError "Failed to fetch")).1.timestamp
      = JsValue.str "29/07/2025, 18:27:27" ∧
     ((shareLocation initState 1 2 "29/07/2025, 18:27:27"
        (WriteOutcome.transportError "Failed to fetch")).2).isSuccess = false) :=
  ⟨rfl, shareLocation_failure_keeps_optimistic_update initState 1 2
    "29/07/2025, 18:27:27" (WriteOutcome.transportError "Failed to fetch") rfl⟩

/-- Claim C3: the day-first-pattern path applied to
"29/07/2025, 18:27:27" swaps the first two numeric groups, resolving to
the instant of year 2025, month 7 (July), day 29, 18:27:27; the full parse
chain resolves the string to the same instant. -/
theorem parseDayFirst_swap_day_month :
    parseDayFirst "29/07/2025, 18:27:27" = some (mkInstant 2025 7 29 18 27 27) ∧
    resolveInstant (TimeInput.str "29/07/2025, 18:27:27")
      = some (mkInstant 2025 7 29 18 27 27) :=
  ⟨rfl, rfl⟩

/-- Claim C4: a read response with `lat`, `lng` and `time` all `null`
leaves `location` and `timestamp` unchanged for every state; in particular,
starting from the initial no-sighting state the location stays `null`. -/
theorem fetchLocation_null_fields_no_sighting (s : AppState) :
    (fetchLocation s
        (FetchOutcome.success JsValue.null JsValue.null JsValue.null)).location
      = s.location ∧
    (fetchLocation s
        (FetchOutcome.success JsValue.null JsValue.null JsValue.null)).timestamp
      = s.timestamp ∧
    (fetchLocation initState
        (FetchOutcome.success JsValue.null JsValue.null JsValue.null)).location
      = none :=
  ⟨rfl, rfl, rfl⟩

/-- Claim C5: a fetch that fails (network or JSON parse error) leaves
`location` and `timestamp` unchanged, and `loading` is false after every
fetch completion, success or failure. -/
theorem fetchLocation_failure_frame (s : AppState) :
    (fetchLocation s FetchOutcome.failure).location = s.location ∧
    (fetchLocation s FetchOutcome.failure).timestamp = s.timestamp ∧
    ∀ o : FetchOutcome, (fetchLocation s o).loading = false := by
  refine ⟨rfl, rfl, fun o => ?_⟩
  cases o with
  | failure => rfl
  | success lat lng t =>
    simp only [fetchLocation]
    split <;> rfl

/-- Claim C6: for a resolved instant in the future (negative delta) the
formatter produces "just now", regardless of the magnitude. -/
theorem formatRelative_future_just_now (t now : Int) (h : now - t < 0) :
    formatRelative (TimeInput.instant t) now = "just now" := by
  simp only [formatRelative, resolveInstant]
  unfold relTimePhrase
  rw [if_pos h]

/-- Concrete instance of the claim C6 theorem. -/
theorem formatRelative_future_just_now_witness :
    (0 : Int) - 100 < 0 ∧ formatRelative (TimeInput.instant 100) 0 = "just now" :=
  ⟨by decide, formatRelative_future_just_now 100 0 (by decide)⟩

/-- Claim C7: an absent input and a string rejected by every parse stage
both produce "no result"; the formatter is a total function of its two
inputs, so it never raises. -/
theorem formatRelative_no_result (now : Int) :
    formatRelative TimeInput.absent now = "no result" ∧
    formatRelative (TimeInput.str "not a date") now = "no result" :=
  ⟨rfl, rfl⟩

/-- Claim C8: the formatter produces "1 minute ago" at `t + 90s`,
"1 hour ago" at exactly `t + 3600s` and "1 day ago" at exactly
`t + 86400s`, with plural forms at the corresponding larger deltas, and
pluralization is singular exactly for a count of 1. -/
theorem formatRelative_boundaries (t n : Int) (u : String) (h : n ≠ 1) :
    formatRelative (TimeInput.instant t) (t + 90) = "1 minute ago" ∧
    formatRelative (TimeInput.instant t) (t + 150) = "2 minutes ago" ∧
    formatRelative (TimeInput.instant t) (t + 3600) = "1 hour ago" ∧
    formatRelative (TimeInput.instant t) (t + 7200) = "2 hours ago" ∧
    formatRelative (TimeInput.instant t) (t + 86400) = "1 day ago" ∧
    formatRelative (TimeInput.instant t) (t + 172800) = "2 days ago" ∧
    pluralize 1 u = "1 " ++ u ++ " ago" ∧
    pluralize n u = toString n ++ " " ++ u ++ "s ago" := by
  refine ⟨?_, ?_, ?_, ?_, ?_, ?_, ?_, ?_⟩
  · rw [formatRelative_instant_shift]; rfl
  · rw [formatRelative_instant_shift]; rfl
  · rw [formatRelative_instant_shift]; rfl
  · rw [formatRelative_instant_shift]; rfl
  · rw [formatRelative_instant_shift]; rfl
  · rw [formatRelative_instant_shift]; rfl
  · simp only [pluralize, if_pos rfl, String.append_empty]
    rw [show toString (1 : Int) = "1" from rfl]
    simp
  · simp [pluralize, if_neg h, String.append_assoc]

/-- Concrete instance of the claim C8 theorem. -/
theorem formatRelative_boundaries_witness :
    (2 : Int) ≠ 1 ∧
    (formatRelative (TimeInput.instant 0) (0 + 90) = "1 minute ago" ∧
     formatRelative (TimeInput.instant 0) (0 + 150) = "2 minutes ago" ∧
     formatRelative (TimeInput.instant 0) (0 + 3600) = "1 hour ago" ∧
     formatRelative (TimeInput.instant 0) (0 + 7200) = "2 hours ago" ∧
     formatRelative (TimeInput.instant 0) (0 + 86400) = "1 day ago" ∧
     formatRelative (TimeInput.instant 0) (0 + 172800) = "2 days ago" ∧
     pluralize 1 "minute" = "1 " ++ "minute" ++ " ago" ∧
     pluralize 2 "minute" = toString (2 : Int) ++ " " ++ "minute" ++ "s ago") :=
  ⟨by decide, formatRelative_boundaries 0 2 "minute" (by decide)⟩

/-- Claim C9: a read response in which `lat` or `lng` is falsy (the number
0, the empty string, `null` or an absent field) leaves `location` and
`timestamp` unchanged; in particular latitude 0 and longitude 0 are falsy
and hence treated as "no sighting yet". -/
theorem fetchLocation_falsy_unchanged (s : AppState) (lat lng t : JsValue)
    (h : truthy lat = false ∨ truthy lng = false) :
    ((fetchLocation s (FetchOutcome.success lat lng t)).location = s.location ∧
     (fetchLocation s (FetchOutcome.success lat lng t)).timestamp = s.timestamp) ∧
    (truthy (JsValue.num 0) = false ∧ truthy (JsValue.str "") = false ∧
     truthy JsValue.null = false ∧ truthy JsValue.undefined = false) := by
  have hc : (truthy lat && truthy lng) = false := by
    rcases h with h | h <;> simp [h]
  constructor
  · constructor <;> simp [fetchLocation, hc]
  · exact ⟨by decide, by decide, by decide, by decide⟩

/-- Concrete instance of the claim C9 theorem, at latitude 0. -/
theorem fetchLocation_falsy_unchanged_witness :
    (truthy (JsValue.num 0) = false ∨ truthy (JsValue.num 1) = false) ∧
    (((fetchLocation initState
        (FetchOutcome.success (JsValue.num 0) (JsValue.num 1) JsValue.null)).location
        = initState.location ∧
      (fetchLocation initState
        (FetchOutcome.success (JsValue.num 0) (JsValue.num 1) JsValue.null)).timestamp
        = initState.timestamp) ∧
     (truthy (JsValue.num 0) = false ∧ truthy (JsValue.str "") = false ∧
      truthy JsValue.null = false ∧ truthy JsValue.undefined = false)) :=
  ⟨Or.inl (by decide),
   fetchLocation_falsy_unchanged initState (JsValue.num 0) (JsValue.num 1)
     JsValue.null (Or.inl (by decide))⟩

/-- Claim C10: a `doGet` update request in which `lat`, `lng` or `time` is
absent or empty returns the missing-parameters JSON and leaves the stored
row unchanged. -/
theorem doGet_missing_params (row : String × String × String) (p : GetParams)
    (ha : p.action = some "update")
    (h : paramTruthy p.lat = false ∨ paramTruthy p.lng = false ∨
      paramTruthy p.time = false) :
    doGet row p = (row, missingParamsJson) := by
  have hc : (paramTruthy p.lat && paramTruthy p.lng && paramTruthy p.time)
      = false := by
    rcases h with h | h | h <;> simp [h]
  simp [doGet, ha, hc]

/-- Concrete instance of the claim C10 theorem, with `lat` absent. -/
theorem doGet_missing_params_witness :
    (GetParams.mk (some "update") none (some "4") (some "5")).action
      = some "update" ∧
    (paramTruthy (GetParams.mk (some "update") none (some "4") (some "5")).lat
        = false ∨
     paramTruthy (GetParams.mk (some "update") none (some "4") (some "5")).lng
        = false ∨
     paramTruthy (GetParams.mk (some "update") none (some "4") (some "5")).time
        = false) ∧
    doGet ("1", "2", "3") (GetParams.mk (some "update") none (some "4") (some "5"))
      = (("1", "2", "3"), missingParamsJson) :=
  ⟨rfl, Or.inl rfl,
   doGet_missing_params ("1", "2", "3")
     (GetParams.mk (some "update") none (some "4") (some "5")) rfl (Or.inl rfl)⟩
